import Mathlib

/-!
Verification of the resilient multi-source retrieval engine of the
MyRecipeFinder backend (`backend/mcp_server.py`, `backend/llm_graph.py`).

The Python code is shallowly embedded: strings are `List Char` (Python `str`
is a sequence of characters), numeric nutrient values are `ℚ` (exact
arithmetic over the values the Python floats hold in the ranges involved),
dictionaries keyed by provider name are association lists or functions from a
provider type, and code that can raise returns `Except`/`Option`. External
HTTP providers are modelled as an environment function giving each provider's
outcome (a raised exception or a returned value) for the one call the
orchestrator makes to it.
-/

namespace RecipeMCP

/-- The four external providers registered in `RobustRecipeMCPServer.__init__`
(`self.api_health` keys). -/
inductive ProviderId where
  | themealdb
  | usda
  | fatsecret
  | spoonacular
deriving DecidableEq, Repr

/-- Provider name as it appears in provenance strings. -/
def providerName : ProviderId → String
  | .themealdb => "themealdb"
  | .usda => "usda"
  | .fatsecret => "fatsecret"
  | .spoonacular => "spoonacular"

/-- One entry of `self.api_health`:
`{'available': True, 'last_success': time.time(), 'failures': 0}`. -/
structure ApiHealth where
  available : Bool
  last_success : Nat
  failures : Nat
deriving DecidableEq, Repr

/-- The whole `self.api_health` dictionary. -/
def Health := ProviderId → ApiHealth

/-- Initial health table from `__init__`: every provider available with zero
failures; `t` stands for the `time.time()` value at construction. -/
def initHealth (t : Nat) : Health :=
  fun _ => { available := true, last_success := t, failures := 0 }

/-- The success branch of the fallback loops
(`self.api_health[api_name]['last_success'] = time.time();
self.api_health[api_name]['failures'] = 0`): the timestamp is refreshed and
the failure counter cleared.  Note the source does not assign `available`
here. -/
def recordSuccess (t : Nat) (a : ApiHealth) : ApiHealth :=
  { a with last_success := t, failures := 0 }

/-- The exception branch of the SEARCH loop (lines 80–88):
`self.api_health[api_name]['failures'] += 1` followed by
`if ... >= 3: available = False`. -/
def recordFailure (a : ApiHealth) : ApiHealth :=
  let f := a.failures + 1
  { a with failures := f, available := if 3 ≤ f then false else a.available }

/-- The exception branch of the NUTRITION loop (lines 134–137):
`self.api_health[api_name]['failures'] += 1` and nothing else — unlike the
search loop, this handler never assigns `available` (line 87 is the only
`available = False` assignment in the repository). -/
def recordFailureNutrition (a : ApiHealth) : ApiHealth :=
  { a with failures := a.failures + 1 }

/-- A health-tracker event recorded against one provider.  The two
orchestration paths share the success block but record failures differently:
the search loop trips the availability flag at 3 failures, the nutrition
loop only increments the counter. -/
inductive HealthEvent where
  | success (t : Nat)
  | failureSearch
  | failureNutrition
deriving DecidableEq, Repr

/-- Apply one recorded event to a provider's health entry. -/
def applyEvent (a : ApiHealth) : HealthEvent → ApiHealth
  | .success t => recordSuccess t a
  | .failureSearch => recordFailure a
  | .failureNutrition => recordFailureNutrition a

/-- Apply a sequence of recorded events in order. -/
def applyEvents (a : ApiHealth) (es : List HealthEvent) : ApiHealth :=
  es.foldl applyEvent a

/-! ## Recipe records and the search orchestrator -/

/-- A recipe dictionary as produced by a provider or the static fallback
table.  Control flow only ever inspects `title`, `ingredients` and the two
provenance tags written at the end of `search_recipes_with_fallback`
(`_sources_tried`, `_fallback_used`); the remaining payload keys
(instructions, image, category, ...) are carried opaquely by the Python code
and are not modelled. -/
structure Recipe where
  title : List Char
  ingredients : List (List Char)
  sources_tried : List String := []
  fallback_used : Bool := false
deriving DecidableEq, Repr

/-- Outcome of calling one search provider: either a raised exception or the
returned recipe list. -/
def SearchEnv := ProviderId → Except Unit (List Recipe)

/-- The `api_priority` list of `search_recipes_with_fallback`:
TheMealDB then Spoonacular. -/
def api_priority : List ProviderId := [ProviderId.themealdb, ProviderId.spoonacular]

/-- The provider loop of `search_recipes_with_fallback` (lines 60–88).
State threaded through the iterations: the health table, the accumulated
`sources_tried` list; the returned recipe list is non-empty exactly when some
provider succeeded with results (`break`). -/
def searchLoop (env : SearchEnv) (t : Nat) :
    List ProviderId → Health → List String → Health × List String × List Recipe
  | [], h, tried => (h, tried, [])
  | p :: ps, h, tried =>
    if (h p).available then
      match env p with
      | .ok rs =>
        if rs.isEmpty then
          searchLoop env t ps h (tried ++ [providerName p])
        else
          (Function.update h p (recordSuccess t (h p)), tried ++ [providerName p], rs)
      | .error _ =>
        searchLoop env t ps (Function.update h p (recordFailure (h p)))
          (tried ++ [providerName p ++ "(failed)"])
    else
      searchLoop env t ps h (tried ++ [providerName p ++ "(unavailable)"])

/-- Lower-case a Python string (`str.lower()` acts per character on the ASCII
text involved here). -/
def lowerStr (s : List Char) : List Char := s.map Char.toLower

/-- Python's substring test `needle in hay`. -/
def containsSub (hay needle : List Char) : Bool :=
  hay.tails.any fun suf => needle.isPrefixOf suf

/-- The `"chicken"` entry of the static `fallback_recipes` table. -/
def fallbackChicken : Recipe :=
  { title := "Simple Grilled Chicken".data
    ingredients := ["chicken breast".data, "olive oil".data, "salt".data,
      "pepper".data, "garlic powder".data] }

/-- The `"salad"` entry of the static `fallback_recipes` table. -/
def fallbackSalad : Recipe :=
  { title := "Fresh Garden Salad".data
    ingredients := ["mixed greens".data, "cherry tomatoes".data, "cucumber".data,
      "red onion".data, "olive oil".data, "balsamic vinegar".data, "feta cheese".data] }

/-- The `"pasta"` entry of the static `fallback_recipes` table. -/
def fallbackPasta : Recipe :=
  { title := "Simple Pasta Aglio e Olio".data
    ingredients := ["spaghetti".data, "garlic".data, "olive oil".data,
      "red pepper flakes".data, "parsley".data, "parmesan cheese".data] }

/-- The `"quinoa"` entry of the static `fallback_recipes` table. -/
def fallbackQuinoa : Recipe :=
  { title := "Mediterranean Quinoa Bowl".data
    ingredients := ["quinoa".data, "chickpeas".data, "feta cheese".data,
      "cherry tomatoes".data, "cucumber".data, "red onion".data, "olive oil".data,
      "lemon juice".data] }

/-- The `"soup"` entry of the static `fallback_recipes` table. -/
def fallbackSoup : Recipe :=
  { title := "Chicken Vegetable Soup".data
    ingredients := ["chicken breast".data, "carrots".data, "celery".data,
      "onion".data, "chicken broth".data, "garlic".data, "thyme".data,
      "bay leaf".data] }

/-- The `fallback_recipes` dictionary in insertion order (keyword, recipe). -/
def fallback_recipes : List (List Char × Recipe) :=
  [("chicken".data, fallbackChicken), ("salad".data, fallbackSalad),
   ("pasta".data, fallbackPasta), ("quinoa".data, fallbackQuinoa),
   ("soup".data, fallbackSoup)]

/-- `get_fallback_recipes` (lines 210–284): keep the table entries whose
keyword occurs in the lower-cased query or one of whose ingredient strings
occurs in the lower-cased query; return the first `max_results` matches, or
the first table entry (the chicken recipe) when nothing matches. -/
def get_fallback_recipes (query : List Char) (max_results : Nat) : List Recipe :=
  let query_lower := lowerStr query
  let matching := (fallback_recipes.filter fun kr =>
    containsSub query_lower kr.1 ||
      kr.2.ingredients.any fun word => containsSub query_lower word).map Prod.snd
  if matching.isEmpty then [fallbackChicken] else matching.take max_results

/-- The state of `search_recipes_with_fallback` after the provider loop has
run over `api_priority` starting from empty `sources_tried`. -/
def searchLoopOut (env : SearchEnv) (t : Nat) (h : Health) :
    Health × List String × List Recipe :=
  searchLoop env t api_priority h []

/-- The final `sources_tried` list of `search_recipes_with_fallback`: the
loop's attempt list, with `"fallback"` appended when no provider produced
recipes (lines 90–94). -/
def finalSourcesTried (env : SearchEnv) (t : Nat) (h : Health) : List String :=
  if (searchLoopOut env t h).2.2.isEmpty then (searchLoopOut env t h).2.1 ++ ["fallback"]
  else (searchLoopOut env t h).2.1

/-- The recipe list of `search_recipes_with_fallback` before tagging: the
loop's recipes, or the static fallback when the loop produced none. -/
def finalRecipesRaw (env : SearchEnv) (t : Nat) (h : Health) (query : List Char)
    (max_results : Nat) : List Recipe :=
  if (searchLoopOut env t h).2.2.isEmpty then get_fallback_recipes query max_results
  else (searchLoopOut env t h).2.2

/-- `search_recipes_with_fallback` (lines 49–104): run the provider loop,
substitute the static fallback on an empty result, tag every recipe with
`_sources_tried` and `_fallback_used = len(sources_tried) > 1` (lines
96–101), and return `recipes[:max_results]`.  The first component is the
mutated `self.api_health`. -/
def search_recipes_with_fallback (env : SearchEnv) (t : Nat) (h : Health)
    (query : List Char) (max_results : Nat) : Health × List Recipe :=
  ((searchLoopOut env t h).1,
    ((finalRecipesRaw env t h query max_results).map fun r =>
      { r with sources_tried := finalSourcesTried env t h
               fallback_used := decide (1 < (finalSourcesTried env t h).length) }).take
      max_results)

/-! ## Nutrition records, the nutrition orchestrator, merge and estimator -/

/-- A `{'calories': .., 'protein': .., 'carbs': .., 'fat': .., 'fiber': ..}`
dictionary.  Values are exact rationals standing for the Python numbers. -/
structure NutritionData where
  calories : ℚ
  protein : ℚ
  carbs : ℚ
  fat : ℚ
  fiber : ℚ
deriving DecidableEq, Repr

/-- The all-zero nutrition record. -/
def zeroNutrition : NutritionData := ⟨0, 0, 0, 0, 0⟩

/-- Python's `any(result.values())` on a nutrition dictionary: true when some
value is non-zero (numeric truthiness). -/
def anyNonzero (r : NutritionData) : Bool :=
  r.calories ≠ 0 || r.protein ≠ 0 || r.carbs ≠ 0 || r.fat ≠ 0 || r.fiber ≠ 0

/-- All five values of a record are non-negative. -/
def nonnegNutrition (r : NutritionData) : Prop :=
  0 ≤ r.calories ∧ 0 ≤ r.protein ∧ 0 ≤ r.carbs ∧ 0 ≤ r.fat ∧ 0 ≤ r.fiber

instance (r : NutritionData) : Decidable (nonnegNutrition r) := by
  unfold nonnegNutrition; infer_instance

/-- Outcome of calling one nutrition provider: a raised exception or the
returned record. -/
def NutritionEnv := ProviderId → Except Unit NutritionData

/-- The `nutrition_apis` priority list of `get_nutrition_with_fallback`:
USDA then FatSecret. -/
def nutrition_apis : List ProviderId := [ProviderId.usda, ProviderId.fatsecret]

/-- The provider loop of `get_nutrition_with_fallback` (lines 117–137).  A
provider whose returned record has some non-zero value is recorded as a
success, its record stored under its name, and the loop breaks; an all-zero
record advances to the next provider with no health update; an exception
only increments the failure counter (this loop, unlike the search loop, has
no `available = False` assignment). -/
def nutritionLoop (env : NutritionEnv) (t : Nat) :
    List ProviderId → Health → List String → List (ProviderId × NutritionData) →
      Health × List String × List (ProviderId × NutritionData)
  | [], h, tried, results => (h, tried, results)
  | p :: ps, h, tried, results =>
    if (h p).available then
      match env p with
      | .ok r =>
        if anyNonzero r then
          (Function.update h p (recordSuccess t (h p)), tried ++ [providerName p],
            results ++ [(p, r)])
        else
          nutritionLoop env t ps h (tried ++ [providerName p]) results
      | .error _ =>
        nutritionLoop env t ps (Function.update h p (recordFailureNutrition (h p)))
          (tried ++ [providerName p ++ "(failed)"]) results
    else
      nutritionLoop env t ps h (tried ++ [providerName p ++ "(unavailable)"]) results

/-- The inner loop of `merge_nutrition_data` on one source's record: for each
nutrient, keep the source's value when it exceeds the accumulated one. -/
def mergeOne (merged data : NutritionData) : NutritionData :=
  { calories := if merged.calories < data.calories then data.calories else merged.calories
    protein := if merged.protein < data.protein then data.protein else merged.protein
    carbs := if merged.carbs < data.carbs then data.carbs else merged.carbs
    fat := if merged.fat < data.fat then data.fat else merged.fat
    fiber := if merged.fiber < data.fiber then data.fiber else merged.fiber }

/-- `merge_nutrition_data` (lines 154–169): an empty mapping yields the
all-zero record; otherwise start from zeros and take, per nutrient, any
strictly larger value seen while iterating over the sources in insertion
order. -/
def merge_nutrition_data (nutrition_results : List (ProviderId × NutritionData)) :
    NutritionData :=
  if nutrition_results.isEmpty then zeroNutrition
  else nutrition_results.foldl (fun merged sd => mergeOne merged sd.2) zeroNutrition

/-- The `estimations['protein']` keyword list. -/
def proteinWords : List (List Char) :=
  ["chicken".data, "beef".data, "fish".data, "egg".data, "tofu".data,
   "beans".data, "protein".data, "turkey".data, "pork".data]

/-- The `estimations['high_carb']` keyword list. -/
def highCarbWords : List (List Char) :=
  ["rice".data, "pasta".data, "bread".data, "potato".data, "flour".data,
   "sugar".data, "noodles".data, "quinoa".data]

/-- The `estimations['high_fat']` keyword list. -/
def highFatWords : List (List Char) :=
  ["oil".data, "butter".data, "cheese".data, "avocado".data, "nuts".data,
   "mayonnaise".data, "cream".data]

/-- The `estimations['high_fiber']` keyword list. -/
def highFiberWords : List (List Char) :=
  ["vegetables".data, "fruits".data, "whole grain".data, "beans".data,
   "broccoli".data, "spinach".data, "kale".data]

/-- The `estimations['low_cal']` keyword list. -/
def lowCalWords : List (List Char) :=
  ["lettuce".data, "cucumber".data, "tomato".data, "celery".data,
   "broth".data, "water".data, "tea".data]

/-- One iteration of the `estimate_nutrition` loop (lines 184–205): the
lower-cased ingredient is tested with `if`/`elif` in the source's order —
protein, high_carb, high_fat, low_cal, high_fiber — and the first matching
bucket adds its fixed contribution; no bucket matches adds the default. -/
def estimateStep (estimated : NutritionData) (ingredient : List Char) : NutritionData :=
  let il := lowerStr ingredient
  if proteinWords.any fun word => containsSub il word then
    { estimated with calories := estimated.calories + 100, protein := estimated.protein + 15 }
  else if highCarbWords.any fun word => containsSub il word then
    { estimated with calories := estimated.calories + 150, carbs := estimated.carbs + 30 }
  else if highFatWords.any fun word => containsSub il word then
    { estimated with calories := estimated.calories + 120, fat := estimated.fat + 12 }
  else if lowCalWords.any fun word => containsSub il word then
    { estimated with calories := estimated.calories + 25, fiber := estimated.fiber + 3 }
  else if highFiberWords.any fun word => containsSub il word then
    { estimated with calories := estimated.calories + 50, fiber := estimated.fiber + 8 }
  else
    { estimated with calories := estimated.calories + 75, carbs := estimated.carbs + 15 }

/-- `estimate_nutrition` (lines 171–208). -/
def estimate_nutrition (ingredients : List (List Char)) : NutritionData :=
  ingredients.foldl estimateStep zeroNutrition

/-! ## Health scoring and per-serving extraction in `analyze_nutrition` -/

/-- The macro-balance score of `analyze_nutrition` (lines 548–563), computed
inside the `calories > 0` branch: 25 points when the protein-calorie share is
in [10%, 30%], 25 when the carb share is at most 65%, 25 when the fat share
is at most 35%. -/
def balance_score (calories protein carbs fat : ℚ) : ℕ :=
  (if 10 ≤ protein * 4 / calories * 100 ∧ protein * 4 / calories * 100 ≤ 30 then 25 else 0) +
    (if carbs * 4 / calories * 100 ≤ 65 then 25 else 0) +
    (if fat * 9 / calories * 100 ≤ 35 then 25 else 0)

/-- The calorie-band score of `analyze_nutrition` (lines 566–574): 25 for
calories in [200, 600], 15 below 200, 10 above 800, else 20. -/
def calorie_score (calories : ℚ) : ℕ :=
  if 200 ≤ calories ∧ calories ≤ 600 then 25
  else if calories < 200 then 15
  else if 800 < calories then 10
  else 20

/-- `analysis['health_score']` as a function of the per-serving values: the
initial value 0 is overwritten with `balance_score + calorie_score` only
inside the `if calories > 0` branch (lines 544–576). -/
def health_score (calories protein carbs fat : ℚ) : ℕ :=
  if 0 < calories then balance_score calories protein carbs fat + calorie_score calories
  else 0

/-- The four per-serving fields accumulated by `analyze_nutrition`. -/
structure AnalysisAcc where
  calories_per_serving : ℚ
  protein_per_serving : ℚ
  carbs_per_serving : ℚ
  fat_per_serving : ℚ
deriving DecidableEq, Repr

/-- One nutrient of the embedded `nutrition['nutrients']` list (lines
499–510): the name is matched by substring and the matched field is set to
`amount / servings` — the raw servings value, which in Python raises
`ZeroDivisionError` when `servings == 0` (modelled as `none`). -/
def nutrientStep (servings : ℕ) (acc : AnalysisAcc) (n : List Char × ℚ) :
    Option AnalysisAcc :=
  if containsSub n.1 "Calories".data then
    if servings = 0 then none
    else some { acc with calories_per_serving := n.2 / servings }
  else if containsSub n.1 "Protein".data then
    if servings = 0 then none
    else some { acc with protein_per_serving := n.2 / servings }
  else if containsSub n.1 "Carbohydrates".data then
    if servings = 0 then none
    else some { acc with carbs_per_serving := n.2 / servings }
  else if containsSub n.1 "Fat".data then
    if servings = 0 then none
    else some { acc with fat_per_serving := n.2 / servings }
  else some acc

/-- The embedded-nutrients extraction path of `analyze_nutrition` (lines
497–510), folded over the nutrients list. -/
def analyze_embedded (nutrients : List (List Char × ℚ)) (servings : ℕ) :
    Option AnalysisAcc :=
  nutrients.foldlM (nutrientStep servings) ⟨0, 0, 0, 0⟩

/-- The ingredient-based extraction path of `analyze_nutrition` (lines
518–521): every per-serving value divides by `max(servings, 1)`, which is
total. -/
def per_serving_guarded (value : ℚ) (servings : ℕ) : ℚ :=
  value / (max servings 1 : ℕ)

/-- The per-serving analysis produced from a fetched nutrition record by the
ingredient-based path. -/
def analyze_from_ingredients (nut : NutritionData) (servings : ℕ) : AnalysisAcc :=
  { calories_per_serving := per_serving_guarded nut.calories servings
    protein_per_serving := per_serving_guarded nut.protein servings
    carbs_per_serving := per_serving_guarded nut.carbs servings
    fat_per_serving := per_serving_guarded nut.fat servings }

/-! ## Output truncation in `llm_graph._generate` -/

/-- Python's `str.rstrip()`: drop trailing whitespace characters. -/
def rstripChars (l : List Char) : List Char :=
  (l.reverse.dropWhile Char.isWhitespace).reverse

/-- The literal suffix appended by the truncation guard. -/
def trimmedSuffix : List Char := "\n\n...(trimmed)".data

/-- The output-length guard of `_generate` (`llm_graph.py` lines 146–152):
when the answer exceeds `max_chars`, it becomes
`answer[:max_chars].rstrip() + "\n\n...(trimmed)"`. -/
def truncateAnswer (answer : List Char) (max_chars : Nat) : List Char :=
  if max_chars < answer.length then rstripChars (answer.take max_chars) ++ trimmedSuffix
  else answer

/-! ## Auxiliary definitions used to state the claims -/

/-- Pointwise maximum of two nutrition records. -/
def maxNutrition (a b : NutritionData) : NutritionData :=
  ⟨max a.calories b.calories, max a.protein b.protein, max a.carbs b.carbs,
   max a.fat b.fat, max a.fiber b.fiber⟩

/-- Pointwise sum of two nutrition records. -/
def addNutrition (a b : NutritionData) : NutritionData :=
  ⟨a.calories + b.calories, a.protein + b.protein, a.carbs + b.carbs,
   a.fat + b.fat, a.fiber + b.fiber⟩

/-- The five estimator keyword buckets plus the default. -/
inductive Bucket where
  | protein
  | highCarb
  | highFat
  | lowCal
  | highFiber
  | other
deriving DecidableEq, Repr

/-- First-matching-bucket classification of a lower-cased ingredient in the
source's test order: protein, high_carb, high_fat, low_cal, high_fiber. -/
def classifyIngredient (ingredient : List Char) : Bucket :=
  let il := lowerStr ingredient
  if proteinWords.any fun word => containsSub il word then .protein
  else if highCarbWords.any fun word => containsSub il word then .highCarb
  else if highFatWords.any fun word => containsSub il word then .highFat
  else if lowCalWords.any fun word => containsSub il word then .lowCal
  else if highFiberWords.any fun word => containsSub il word then .highFiber
  else .other

/-- The fixed per-ingredient contribution of each bucket. -/
def bucketContribution : Bucket → NutritionData
  | .protein => ⟨100, 15, 0, 0, 0⟩
  | .highCarb => ⟨150, 0, 30, 0, 0⟩
  | .highFat => ⟨120, 0, 0, 12, 0⟩
  | .lowCal => ⟨25, 0, 0, 0, 3⟩
  | .highFiber => ⟨50, 0, 0, 0, 8⟩
  | .other => ⟨75, 0, 15, 0, 0⟩

/-- Written from the claim's words, for comparison with the source: the same
estimator but with the buckets tested in the order the claim states —
protein-rich, high-carb, high-fat, high-fiber, low-calorie — whereas the
source's `elif` chain tests `low_cal` before `high_fiber`. -/
def estimateStepClaimOrder (estimated : NutritionData) (ingredient : List Char) :
    NutritionData :=
  let il := lowerStr ingredient
  if proteinWords.any fun word => containsSub il word then
    { estimated with calories := estimated.calories + 100, protein := estimated.protein + 15 }
  else if highCarbWords.any fun word => containsSub il word then
    { estimated with calories := estimated.calories + 150, carbs := estimated.carbs + 30 }
  else if highFatWords.any fun word => containsSub il word then
    { estimated with calories := estimated.calories + 120, fat := estimated.fat + 12 }
  else if highFiberWords.any fun word => containsSub il word then
    { estimated with calories := estimated.calories + 50, fiber := estimated.fiber + 8 }
  else if lowCalWords.any fun word => containsSub il word then
    { estimated with calories := estimated.calories + 25, fiber := estimated.fiber + 3 }
  else
    { estimated with calories := estimated.calories + 75, carbs := estimated.carbs + 15 }

/-- The claim-order estimator folded over the ingredient list. -/
def estimate_nutrition_claim_order (ingredients : List (List Char)) : NutritionData :=
  ingredients.foldl estimateStepClaimOrder zeroNutrition

/-! ## Helper lemmas: loop branch equations -/

theorem searchLoop_skip (env : SearchEnv) (t : Nat) (p : ProviderId) (ps : List ProviderId)
    (h : Health) (tried : List String) (hp : (h p).available = false) :
    searchLoop env t (p :: ps) h tried
      = searchLoop env t ps h (tried ++ [providerName p ++ "(unavailable)"]) := by
  simp [searchLoop, hp]

theorem searchLoop_emptyOk (env : SearchEnv) (t : Nat) (p : ProviderId)
    (ps : List ProviderId) (h : Health) (tried : List String)
    (hp : (h p).available = true) (he : env p = .ok []) :
    searchLoop env t (p :: ps) h tried
      = searchLoop env t ps h (tried ++ [providerName p]) := by
  simp [searchLoop, hp, he]

theorem searchLoop_success (env : SearchEnv) (t : Nat) (p : ProviderId)
    (ps : List ProviderId) (h : Health) (tried : List String) (rs : List Recipe)
    (hp : (h p).available = true) (he : env p = .ok rs) (hne : rs ≠ []) :
    searchLoop env t (p :: ps) h tried
      = (Function.update h p (recordSuccess t (h p)), tried ++ [providerName p], rs) := by
  simp [searchLoop, hp, he, hne]

theorem searchLoop_err (env : SearchEnv) (t : Nat) (p : ProviderId) (ps : List ProviderId)
    (h : Health) (tried : List String) (e : Unit) (hp : (h p).available = true)
    (he : env p = .error e) :
    searchLoop env t (p :: ps) h tried
      = searchLoop env t ps (Function.update h p (recordFailure (h p)))
          (tried ++ [providerName p ++ "(failed)"]) := by
  simp [searchLoop, hp, he]

theorem nutritionLoop_skip (env : NutritionEnv) (t : Nat) (p : ProviderId)
    (ps : List ProviderId) (h : Health) (tried : List String)
    (results : List (ProviderId × NutritionData)) (hp : (h p).available = false) :
    nutritionLoop env t (p :: ps) h tried results
      = nutritionLoop env t ps h (tried ++ [providerName p ++ "(unavailable)"]) results := by
  simp [nutritionLoop, hp]

theorem nutritionLoop_zero (env : NutritionEnv) (t : Nat) (p : ProviderId)
    (ps : List ProviderId) (h : Health) (tried : List String)
    (results : List (ProviderId × NutritionData)) (r : NutritionData)
    (hp : (h p).available = true) (he : env p = .ok r) (hz : anyNonzero r = false) :
    nutritionLoop env t (p :: ps) h tried results
      = nutritionLoop env t ps h (tried ++ [providerName p]) results := by
  simp [nutritionLoop, hp, he, hz]

theorem nutritionLoop_success (env : NutritionEnv) (t : Nat) (p : ProviderId)
    (ps : List ProviderId) (h : Health) (tried : List String)
    (results : List (ProviderId × NutritionData)) (r : NutritionData)
    (hp : (h p).available = true) (he : env p = .ok r) (hz : anyNonzero r = true) :
    nutritionLoop env t (p :: ps) h tried results
      = (Function.update h p (recordSuccess t (h p)), tried ++ [providerName p],
          results ++ [(p, r)]) := by
  simp [nutritionLoop, hp, he, hz]

theorem nutritionLoop_err (env : NutritionEnv) (t : Nat) (p : ProviderId)
    (ps : List ProviderId) (h : Health) (tried : List String)
    (results : List (ProviderId × NutritionData)) (e : Unit)
    (hp : (h p).available = true) (he : env p = .error e) :
    nutritionLoop env t (p :: ps) h tried results
      = nutritionLoop env t ps (Function.update h p (recordFailureNutrition (h p)))
          (tried ++ [providerName p ++ "(failed)"]) results := by
  simp [nutritionLoop, hp, he]

/-! ## Helper lemmas: circuit breaker -/

theorem recordFailure_failures (a : ApiHealth) : (recordFailure a).failures = a.failures + 1 :=
  rfl

theorem three_failures_trip (a : ApiHealth) :
    (recordFailure (recordFailure (recordFailure a))).available = false := by
  simp only [recordFailure]
  rw [if_pos (by omega)]

theorem applyEvent_preserves_unavailable (a : ApiHealth) (e : HealthEvent)
    (ha : a.available = false) : (applyEvent a e).available = false := by
  cases e with
  | success t => simpa [applyEvent, recordSuccess] using ha
  | failureSearch =>
    simp only [applyEvent, recordFailure, ha]
    split <;> rfl
  | failureNutrition => simpa [applyEvent, recordFailureNutrition] using ha

theorem applyEvents_preserves_unavailable (a : ApiHealth) (es : List HealthEvent)
    (ha : a.available = false) : (applyEvents a es).available = false := by
  induction es generalizing a with
  | nil => exact ha
  | cons e es ih =>
    exact ih (applyEvent a e) (applyEvent_preserves_unavailable a e ha)

/-- Membership in the tagged, capped recipe list forces the two provenance
fields. -/
theorem mem_tagged_fields (tried : List String) (rs : List Recipe) (cap : Nat)
    (r : Recipe)
    (hr : r ∈ (rs.map fun x =>
      { x with sources_tried := tried, fallback_used := decide (1 < tried.length) }).take cap) :
    r.sources_tried = tried ∧ r.fallback_used = decide (1 < tried.length) := by
  have hmem := List.take_subset cap _ hr
  rcases List.mem_map.1 hmem with ⟨x, _, rfl⟩
  exact ⟨rfl, rfl⟩

/-! ## Claim theorems -/

/-- C1: for every recipe-search invocation the orchestrator walks the fixed
priority list (`api_priority = [themealdb, spoonacular]`), skipping an
unavailable provider without calling it while appending a
`"<provider>(unavailable)"` provenance entry, continuing past a raising
provider with a `"<provider>(failed)"` entry, and stopping at the first
provider that returns a non-empty list without raising; every record in the
returned list carries the full ordered attempt list as `_sources_tried` and
`_fallback_used = (len(sources_tried) > 1)`. -/
theorem search_orchestration_first_success_and_provenance (env : SearchEnv) (t : Nat)
    (h : Health) (tried : List String) (q : List Char) (cap : Nat) :
    (∀ p ps, (h p).available = false →
      searchLoop env t (p :: ps) h tried
        = searchLoop env t ps h (tried ++ [providerName p ++ "(unavailable)"])) ∧
    (∀ p ps rs, (h p).available = true → env p = .ok rs → rs ≠ [] →
      searchLoop env t (p :: ps) h tried
        = (Function.update h p (recordSuccess t (h p)), tried ++ [providerName p], rs)) ∧
    (∀ p ps e, (h p).available = true → env p = .error e →
      searchLoop env t (p :: ps) h tried
        = searchLoop env t ps (Function.update h p (recordFailure (h p)))
            (tried ++ [providerName p ++ "(failed)"])) ∧
    (∀ r ∈ (search_recipes_with_fallback env t h q cap).2,
      r.sources_tried = finalSourcesTried env t h ∧
      r.fallback_used = decide (1 < (finalSourcesTried env t h).length)) := by
  refine ⟨fun p ps hp => searchLoop_skip env t p ps h tried hp,
    fun p ps rs hp he hne => searchLoop_success env t p ps h tried rs hp he hne,
    fun p ps e hp he => searchLoop_err env t p ps h tried e hp he, ?_⟩
  intro r hr
  exact mem_tagged_fields (finalSourcesTried env t h) (finalRecipesRaw env t h q cap) cap r hr

/-- Witness for C1: the four conjuncts instantiated at concrete environments,
with every hypothesis discharged by evaluation. -/
theorem search_orchestration_first_success_and_provenance_witness :
    (searchLoop (fun _ => Except.error ()) 7 [ProviderId.themealdb]
        (fun _ => ⟨false, 0, 3⟩) []
      = searchLoop (fun _ => Except.error ()) 7 [] (fun _ => ⟨false, 0, 3⟩)
          ([] ++ [providerName ProviderId.themealdb ++ "(unavailable)"])) ∧
    (searchLoop (fun _ => Except.ok [fallbackChicken]) 7 [ProviderId.themealdb]
        (initHealth 0) []
      = (Function.update (initHealth 0) ProviderId.themealdb
          (recordSuccess 7 (initHealth 0 ProviderId.themealdb)),
         [] ++ [providerName ProviderId.themealdb], [fallbackChicken])) ∧
    (searchLoop (fun _ => Except.error ()) 7 [ProviderId.themealdb] (initHealth 0) []
      = searchLoop (fun _ => Except.error ()) 7 []
          (Function.update (initHealth 0) ProviderId.themealdb
            (recordFailure (initHealth 0 ProviderId.themealdb)))
          ([] ++ [providerName ProviderId.themealdb ++ "(failed)"])) ∧
    (Recipe.sources_tried
        { fallbackChicken with sources_tried := ["themealdb"], fallback_used := false }
      = ["themealdb"]) := by
  refine ⟨?_, ?_, ?_, ?_⟩
  · exact (search_orchestration_first_success_and_provenance (fun _ => Except.error ()) 7
      (fun _ => ⟨false, 0, 3⟩) [] "x".data 5).1 ProviderId.themealdb [] rfl
  · exact (search_orchestration_first_success_and_provenance
      (fun _ => Except.ok [fallbackChicken]) 7 (initHealth 0) [] "x".data 5).2.1
      ProviderId.themealdb [] [fallbackChicken] rfl rfl (by simp)
  · exact (search_orchestration_first_success_and_provenance (fun _ => Except.error ()) 7
      (initHealth 0) [] "x".data 5).2.2.1 ProviderId.themealdb [] () rfl rfl
  · have hmem : { fallbackChicken with sources_tried := ["themealdb"], fallback_used := false }
        ∈ (search_recipes_with_fallback (fun _ => Except.ok [fallbackChicken]) 7
            (initHealth 0) "x".data 5).2 := by decide
    have hfields := (search_orchestration_first_success_and_provenance
      (fun _ => Except.ok [fallbackChicken]) 7 (initHealth 0) [] "x".data 5).2.2.2 _ hmem
    exact hfields.1.trans (by decide)

/-- Counterexample to C2 as stated: three consecutive failures recorded by
the nutrition-lookup path leave a fresh provider entry at
`{available: True, failures: 3}` — the handler at lines 134–137 never assigns
`available = False` (line 87, in the search loop, is the only such assignment
in the repository, and `usda`/`fatsecret` appear only in the nutrition loop).
The first conjunct is at the event level; the second runs
`get_nutrition_with_fallback`'s loop three times over `nutrition_apis` with
every call raising and reads off `usda`'s entry. -/
theorem nutrition_path_three_failures_leave_available :
    applyEvents ⟨true, 0, 0⟩ [.failureNutrition, .failureNutrition, .failureNutrition]
      = ⟨true, 0, 3⟩ ∧
    ((nutritionLoop (fun _ => Except.error ()) 0 nutrition_apis
        ((nutritionLoop (fun _ => Except.error ()) 0 nutrition_apis
          ((nutritionLoop (fun _ => Except.error ()) 0 nutrition_apis
            (initHealth 0) [] []).1) [] []).1) [] []).1 ProviderId.usda)
      = ⟨true, 0, 3⟩ := by
  exact ⟨by decide, by decide⟩

/-- C2 amended: after three consecutive failures recorded by the
recipe-search path, a provider's availability is false and remains false for
the rest of the process lifetime unless externally reset — no later recorded
success or failure of either kind sets it back to true.  Failures recorded by
the nutrition-lookup path, in contrast, only increment the counter and never
change the availability flag (so they can never trip the breaker). -/
theorem circuit_breaker_trips_and_stays_search_path (a : ApiHealth)
    (pre post : List HealthEvent) :
    (applyEvents a (pre ++ [.failureSearch, .failureSearch, .failureSearch] ++ post)).available
      = false ∧
    ∀ b : ApiHealth, (recordFailureNutrition b).available = b.available ∧
      (recordFailureNutrition b).failures = b.failures + 1 := by
  refine ⟨?_, fun b => ⟨rfl, rfl⟩⟩
  rw [applyEvents, List.foldl_append, List.foldl_append]
  exact applyEvents_preserves_unavailable _ post
    (three_failures_trip (applyEvents a pre))

/-- When every provider in the list is unavailable or raises, the search loop
produces no recipes and appends exactly one provenance entry per provider. -/
theorem searchLoop_exhausted (env : SearchEnv) (t : Nat) :
    ∀ (ps : List ProviderId) (h : Health) (tried : List String),
      (∀ p ∈ ps, (h p).available = false ∨ ∃ e, env p = .error e) →
      (searchLoop env t ps h tried).2.2 = [] ∧
      (searchLoop env t ps h tried).2.1.length = tried.length + ps.length := by
  intro ps
  induction ps with
  | nil => intro h tried _; simp [searchLoop]
  | cons p ps ih =>
    intro h tried hyp
    by_cases hav : (h p).available = true
    · rcases hyp p (List.mem_cons_self p ps) with hun | ⟨e, he⟩
      · rw [hun] at hav; exact absurd hav (by simp)
      · rw [searchLoop_err env t p ps h tried e hav he]
        have hyp' : ∀ p' ∈ ps,
            ((Function.update h p (recordFailure (h p))) p').available = false ∨
              ∃ e', env p' = .error e' := by
          intro p' hp'
          by_cases hpp : p' = p
          · exact Or.inr ⟨e, hpp ▸ he⟩
          · rcases hyp p' (List.mem_cons_of_mem p hp') with h1 | h2
            · exact Or.inl (by rwa [Function.update_noteq hpp])
            · exact Or.inr h2
        have hres := ih (Function.update h p (recordFailure (h p)))
          (tried ++ [providerName p ++ "(failed)"]) hyp'
        refine ⟨hres.1, ?_⟩
        rw [hres.2]
        simp [List.length_append]
        omega
    · have hav' : (h p).available = false := by
        cases hb : (h p).available
        · rfl
        · exact absurd hb hav
      rw [searchLoop_skip env t p ps h tried hav']
      have hyp' : ∀ p' ∈ ps, (h p').available = false ∨ ∃ e', env p' = .error e' :=
        fun p' hp' => hyp p' (List.mem_cons_of_mem p hp')
      have hres := ih h (tried ++ [providerName p ++ "(unavailable)"]) hyp'
      refine ⟨hres.1, ?_⟩
      rw [hres.2]
      simp [List.length_append]
      omega

/-- The static fallback returns something whenever at least one recipe is
requested. -/
theorem get_fallback_recipes_ne_nil (query : List Char) (cap : Nat) (hcap : 1 ≤ cap) :
    get_fallback_recipes query cap ≠ [] := by
  simp only [get_fallback_recipes]
  split
  · simp
  · next hm =>
    intro hnil
    rcases List.take_eq_nil_iff.1 hnil with h0 | h0
    · omega
    · rw [h0] at hm
      exact hm rfl

/-- Every recipe the static fallback returns is drawn from the
`fallback_recipes` table. -/
theorem get_fallback_recipes_from_table (query : List Char) (cap : Nat) (r : Recipe)
    (hr : r ∈ get_fallback_recipes query cap) :
    ∃ kr ∈ fallback_recipes, r = kr.2 := by
  simp only [get_fallback_recipes] at hr
  split at hr
  · rcases List.mem_singleton.1 hr with rfl
    exact ⟨("chicken".data, fallbackChicken), by simp [fallback_recipes], rfl⟩
  · have hr' := List.take_subset _ _ hr
    rcases List.mem_map.1 hr' with ⟨kr, hkr, rfl⟩
    exact ⟨kr, List.mem_of_mem_filter hkr, rfl⟩

/-- Counterexample to C3 as stated: with every provider raising, the query
`"chicken"` (which matches the static table) and result cap 0, the search
returns the empty list — `matching[:0]` and the final `recipes[:0]` are both
empty — so the "non-empty for every query string and result cap" part of the
claim fails at cap 0. -/
theorem search_exhaustion_cap_zero_returns_empty :
    (search_recipes_with_fallback (fun _ => Except.error ()) 0 (initHealth 0)
      "chicken".data 0).2 = [] := by
  decide

/-- C3 amended: if every registered search provider is skipped as unavailable
or raises, the search still returns (without surfacing an error) a non-empty
record list drawn from the static table, tagged with `fallback_used = true`,
for every query string and every result cap of at least 1 (the cap-0 case is
the counterexample above). -/
theorem search_exhaustion_returns_fallback (env : SearchEnv) (t : Nat) (h : Health)
    (q : List Char) (cap : Nat) (hcap : 1 ≤ cap)
    (hexh : ∀ p ∈ api_priority, (h p).available = false ∨ ∃ e, env p = .error e) :
    (search_recipes_with_fallback env t h q cap).2 ≠ [] ∧
    ∀ r ∈ (search_recipes_with_fallback env t h q cap).2,
      r.fallback_used = true ∧
      ∃ kr ∈ fallback_recipes, r.title = kr.2.title ∧ r.ingredients = kr.2.ingredients := by
  have hx := searchLoop_exhausted env t api_priority h [] hexh
  have hempty : (searchLoopOut env t h).2.2.isEmpty = true := by
    show (searchLoop env t api_priority h []).2.2.isEmpty = true
    rw [hx.1]; rfl
  have hlen2 : (searchLoopOut env t h).2.1.length = 2 := by
    show (searchLoop env t api_priority h []).2.1.length = 2
    rw [hx.2]; rfl
  have htried : finalSourcesTried env t h = (searchLoopOut env t h).2.1 ++ ["fallback"] := by
    simp [finalSourcesTried, hempty]
  have htlen : (finalSourcesTried env t h).length = 3 := by
    rw [htried]; simp [hlen2]
  have hraw : finalRecipesRaw env t h q cap = get_fallback_recipes q cap := by
    simp [finalRecipesRaw, hempty]
  refine ⟨?_, ?_⟩
  · intro hnil
    simp only [search_recipes_with_fallback] at hnil
    rcases List.take_eq_nil_iff.1 hnil with h0 | h0
    · omega
    · rw [List.map_eq_nil_iff, hraw] at h0
      exact get_fallback_recipes_ne_nil q cap hcap h0
  · intro r hr
    simp only [search_recipes_with_fallback] at hr
    have hfields := mem_tagged_fields (finalSourcesTried env t h)
      (finalRecipesRaw env t h q cap) cap r hr
    have hused : r.fallback_used = true := by
      rw [hfields.2, htlen]; rfl
    rcases List.mem_map.1 (List.take_subset cap _ hr) with ⟨x, hx0, rfl⟩
    rw [hraw] at hx0
    rcases get_fallback_recipes_from_table q cap x hx0 with ⟨kr, hkr, rfl⟩
    exact ⟨hused, kr, hkr, rfl, rfl⟩

/-- Witness for C3's amended theorem: both providers raising, query
`"chicken"`, cap 2. -/
theorem search_exhaustion_returns_fallback_witness :
    (search_recipes_with_fallback (fun _ => Except.error ()) 0 (initHealth 0)
      "chicken".data 2).2 ≠ [] := by
  exact (search_exhaustion_returns_fallback (fun _ => Except.error ()) 0 (initHealth 0)
    "chicken".data 2 (by decide) (fun p _ => Or.inr ⟨(), rfl⟩)).1

end RecipeMCP

namespace RecipeMCP

/-! ## Helper lemmas: merge engine -/

theorem ite_lt_max (a b : ℚ) : (if a < b then b else a) = max a b := by
  rcases lt_or_le a b with h | h
  · rw [if_pos h, max_eq_right h.le]
  · rw [if_neg (not_lt.2 h), max_eq_left h]

theorem mergeOne_eq_max (a b : NutritionData) : mergeOne a b = maxNutrition a b := by
  simp [mergeOne, maxNutrition, ite_lt_max]

theorem merge_eq_foldl_max (rs : List (ProviderId × NutritionData)) :
    merge_nutrition_data rs
      = rs.foldl (fun acc e => maxNutrition acc e.2) zeroNutrition := by
  cases rs with
  | nil => rfl
  | cons e es =>
    have hfun : (fun (merged : NutritionData) (sd : ProviderId × NutritionData) =>
        mergeOne merged sd.2) = fun merged sd => maxNutrition merged sd.2 := by
      funext m sd; exact mergeOne_eq_max m sd.2
    simp only [merge_nutrition_data, List.isEmpty_cons, hfun]
    rfl

theorem maxNutrition_zero_left (A : NutritionData) (hA : nonnegNutrition A) :
    maxNutrition zeroNutrition A = A := by
  obtain ⟨c, p, cb, f, fb⟩ := A
  obtain ⟨h1, h2, h3, h4, h5⟩ := hA
  simp only [maxNutrition, zeroNutrition, NutritionData.mk.injEq]
  exact ⟨max_eq_right h1, max_eq_right h2, max_eq_right h3, max_eq_right h4,
    max_eq_right h5⟩

theorem foldl_maxNutrition_proj (f : NutritionData → ℚ)
    (hf : ∀ a b, f (maxNutrition a b) = max (f a) (f b)) :
    ∀ (rs : List (ProviderId × NutritionData)) (z : NutritionData),
      f (rs.foldl (fun acc e => maxNutrition acc e.2) z)
        = (rs.map fun e => f e.2).foldl max (f z) := by
  intro rs
  induction rs with
  | nil => intro z; rfl
  | cons e es ih =>
    intro z
    simp only [List.foldl_cons, List.map_cons]
    rw [ih, hf]

end RecipeMCP

namespace RecipeMCP

/-- C4: `merge_nutrition_data` implements per-nutrient maximum semantics:
the empty mapping yields the all-zero record; a singleton mapping of a
record with non-negative values yields that record; a two-provider mapping
yields the pointwise maximum; and in general each merged nutrient is the
fold of `max` over the providers' values started at 0 — i.e. the largest
positive observation, or 0 when no provider reported a positive value. -/
theorem merge_nutrition_max_semantics :
    merge_nutrition_data [] = zeroNutrition ∧
    (∀ p A, nonnegNutrition A → merge_nutrition_data [(p, A)] = A) ∧
    (∀ p q A B, nonnegNutrition A → nonnegNutrition B →
      merge_nutrition_data [(p, A), (q, B)] = maxNutrition A B) ∧
    (∀ rs : List (ProviderId × NutritionData),
      (merge_nutrition_data rs).calories = (rs.map fun e => e.2.calories).foldl max 0 ∧
      (merge_nutrition_data rs).protein = (rs.map fun e => e.2.protein).foldl max 0 ∧
      (merge_nutrition_data rs).carbs = (rs.map fun e => e.2.carbs).foldl max 0 ∧
      (merge_nutrition_data rs).fat = (rs.map fun e => e.2.fat).foldl max 0 ∧
      (merge_nutrition_data rs).fiber = (rs.map fun e => e.2.fiber).foldl max 0) := by
  refine ⟨rfl, ?_, ?_, ?_⟩
  · intro p A hA
    rw [merge_eq_foldl_max]
    simp only [List.foldl_cons, List.foldl_nil]
    exact maxNutrition_zero_left A hA
  · intro p q A B hA hB
    rw [merge_eq_foldl_max]
    simp only [List.foldl_cons, List.foldl_nil]
    rw [maxNutrition_zero_left A hA]
  · intro rs
    rw [merge_eq_foldl_max]
    exact ⟨foldl_maxNutrition_proj NutritionData.calories (fun a b => rfl) rs zeroNutrition,
      foldl_maxNutrition_proj NutritionData.protein (fun a b => rfl) rs zeroNutrition,
      foldl_maxNutrition_proj NutritionData.carbs (fun a b => rfl) rs zeroNutrition,
      foldl_maxNutrition_proj NutritionData.fat (fun a b => rfl) rs zeroNutrition,
      foldl_maxNutrition_proj NutritionData.fiber (fun a b => rfl) rs zeroNutrition⟩

/-- Witness for C4: two concrete records with non-negative values. -/
theorem merge_nutrition_max_semantics_witness :
    merge_nutrition_data [(ProviderId.usda, ⟨1, 2, 3, 4, 5⟩)] = (⟨1, 2, 3, 4, 5⟩ : NutritionData) ∧
    merge_nutrition_data [(ProviderId.usda, ⟨1, 0, 3, 9, 5⟩), (ProviderId.fatsecret, ⟨5, 2, 2, 4, 0⟩)]
      = maxNutrition ⟨1, 0, 3, 9, 5⟩ ⟨5, 2, 2, 4, 0⟩ := by
  exact ⟨merge_nutrition_max_semantics.2.1 ProviderId.usda ⟨1, 2, 3, 4, 5⟩ (by decide),
    merge_nutrition_max_semantics.2.2.1 ProviderId.usda ProviderId.fatsecret
      ⟨1, 0, 3, 9, 5⟩ ⟨5, 2, 2, 4, 0⟩ (by decide) (by decide)⟩

end RecipeMCP

namespace RecipeMCP

/-! ## Helper lemmas: health scoring -/

theorem balance_score_le (c pr cb ft : ℚ) : balance_score c pr cb ft ≤ 75 := by
  unfold balance_score
  split_ifs <;> norm_num

theorem calorie_score_le (c : ℚ) : calorie_score c ≤ 25 := by
  unfold calorie_score
  split_ifs <;> norm_num

/-- C5: for every nutrition record and servings count, the health score
computed on the per-serving values lies in [0, 100]; when per-serving
calories are positive it is exactly the sum of the macro-balance score (25
points each for protein share in [10, 30]%, carb share ≤ 65%, fat share
≤ 35%, so at most 75) and the calorie-band score (25 in [200, 600], 15 below
200, 10 above 800, 20 on (600, 800]). -/
theorem health_score_in_range (nut : NutritionData) (servings : ℕ) :
    0 ≤ health_score (per_serving_guarded nut.calories servings)
        (per_serving_guarded nut.protein servings)
        (per_serving_guarded nut.carbs servings)
        (per_serving_guarded nut.fat servings) ∧
    health_score (per_serving_guarded nut.calories servings)
        (per_serving_guarded nut.protein servings)
        (per_serving_guarded nut.carbs servings)
        (per_serving_guarded nut.fat servings) ≤ 100 ∧
    (0 < per_serving_guarded nut.calories servings →
      health_score (per_serving_guarded nut.calories servings)
          (per_serving_guarded nut.protein servings)
          (per_serving_guarded nut.carbs servings)
          (per_serving_guarded nut.fat servings)
        = balance_score (per_serving_guarded nut.calories servings)
            (per_serving_guarded nut.protein servings)
            (per_serving_guarded nut.carbs servings)
            (per_serving_guarded nut.fat servings)
          + calorie_score (per_serving_guarded nut.calories servings)) ∧
    balance_score (per_serving_guarded nut.calories servings)
        (per_serving_guarded nut.protein servings)
        (per_serving_guarded nut.carbs servings)
        (per_serving_guarded nut.fat servings) ≤ 75 ∧
    (200 ≤ per_serving_guarded nut.calories servings ∧
        per_serving_guarded nut.calories servings ≤ 600 →
      calorie_score (per_serving_guarded nut.calories servings) = 25) ∧
    (per_serving_guarded nut.calories servings < 200 →
      calorie_score (per_serving_guarded nut.calories servings) = 15) ∧
    (800 < per_serving_guarded nut.calories servings →
      calorie_score (per_serving_guarded nut.calories servings) = 10) ∧
    (600 < per_serving_guarded nut.calories servings ∧
        per_serving_guarded nut.calories servings ≤ 800 →
      calorie_score (per_serving_guarded nut.calories servings) = 20) := by
  set c := per_serving_guarded nut.calories servings with hc
  set pr := per_serving_guarded nut.protein servings with hpr
  set cb := per_serving_guarded nut.carbs servings with hcb
  set ft := per_serving_guarded nut.fat servings with hft
  refine ⟨Nat.zero_le _, ?_, ?_, balance_score_le c pr cb ft, ?_, ?_, ?_, ?_⟩
  · unfold health_score
    split_ifs
    · exact le_trans (Nat.add_le_add (balance_score_le c pr cb ft) (calorie_score_le c))
        (by norm_num)
    · norm_num
  · intro hpos
    unfold health_score
    rw [if_pos hpos]
  · intro hband
    unfold calorie_score
    rw [if_pos hband]
  · intro hlow
    unfold calorie_score
    rw [if_neg (fun hband => absurd hband.1 (not_le.2 hlow)), if_pos hlow]
  · intro hhigh
    unfold calorie_score
    rw [if_neg (fun hband => absurd hband.2 (by linarith)),
      if_neg (by linarith), if_pos hhigh]
  · intro hmid
    unfold calorie_score
    rw [if_neg (fun hband => absurd hband.2 (not_le.2 hmid.1)),
      if_neg (by linarith [hmid.1]), if_neg (not_lt.2 hmid.2)]

/-- Witness for C5: the record (600 kcal, 40 g protein, 60 g carbs, 20 g fat)
at 2 servings, whose per-serving calories 300 are positive. -/
theorem health_score_in_range_witness :
    health_score (per_serving_guarded 600 2) (per_serving_guarded 40 2)
        (per_serving_guarded 60 2) (per_serving_guarded 20 2) ≤ 100 ∧
    health_score (per_serving_guarded 600 2) (per_serving_guarded 40 2)
        (per_serving_guarded 60 2) (per_serving_guarded 20 2)
      = balance_score (per_serving_guarded 600 2) (per_serving_guarded 40 2)
          (per_serving_guarded 60 2) (per_serving_guarded 20 2)
        + calorie_score (per_serving_guarded 600 2) := by
  refine ⟨(health_score_in_range ⟨600, 40, 60, 20, 0⟩ 2).2.1, ?_⟩
  exact (health_score_in_range ⟨600, 40, 60, 20, 0⟩ 2).2.2.1 (by
    show (0 : ℚ) < per_serving_guarded 600 2
    norm_num [per_serving_guarded])

end RecipeMCP

namespace RecipeMCP

/-- Counterexample to C6 as stated: the nutrition loop's exception branch
(lines 134–137) takes an available entry whose counter stands at 2 to
counter 3 with the availability flag still true — the claim's "sets
availability to false once the count reaches 3" holds only for the search
loop's exception branch (lines 82–88), shown alongside for contrast. -/
theorem nutrition_failure_reaches_three_without_trip :
    ((nutritionLoop (fun _ => Except.error ()) 0 [ProviderId.usda]
        (fun _ => ⟨true, 5, 2⟩) [] []).1 ProviderId.usda) = ⟨true, 5, 3⟩ ∧
    ((searchLoop (fun _ => Except.error ()) 0 [ProviderId.themealdb]
        (fun _ => ⟨true, 5, 2⟩) []).1 ProviderId.themealdb) = ⟨false, 5, 3⟩ := by
  exact ⟨by decide, by decide⟩

/-- C6 amended: recording a success clears the consecutive-failure counter
and — since both orchestrator loops record a success only for a provider
that just passed the availability check — leaves the availability flag true
(restated at loop level for both paths in the fourth and fifth conjuncts).
Recording a failure increments the counter; a failure recorded by the
recipe-search path additionally sets availability to false once the count
reaches 3, while a failure recorded by the nutrition-lookup path leaves the
availability flag unchanged (last two conjuncts: the operation, and the
nutrition loop's exception branch installing exactly it). -/
theorem health_tracker_contract_per_path (a : ApiHealth) (t : Nat) :
    (a.available = true →
      (recordSuccess t a).failures = 0 ∧ (recordSuccess t a).available = true) ∧
    (recordFailure a).failures = a.failures + 1 ∧
    (3 ≤ a.failures + 1 → (recordFailure a).available = false) ∧
    (∀ (env : SearchEnv) (t' : Nat) (p : ProviderId) (ps : List ProviderId)
        (h : Health) (tried : List String) (rs : List Recipe),
      (h p).available = true → env p = .ok rs → rs ≠ [] →
      ((searchLoop env t' (p :: ps) h tried).1 p).failures = 0 ∧
      ((searchLoop env t' (p :: ps) h tried).1 p).available = true) ∧
    (∀ (env : NutritionEnv) (t' : Nat) (p : ProviderId) (ps : List ProviderId)
        (h : Health) (tried : List String)
        (results : List (ProviderId × NutritionData)) (r : NutritionData),
      (h p).available = true → env p = .ok r → anyNonzero r = true →
      ((nutritionLoop env t' (p :: ps) h tried results).1 p).failures = 0 ∧
      ((nutritionLoop env t' (p :: ps) h tried results).1 p).available = true) ∧
    (recordFailureNutrition a).failures = a.failures + 1 ∧
    (recordFailureNutrition a).available = a.available ∧
    (∀ (env : NutritionEnv) (t' : Nat) (p : ProviderId) (ps : List ProviderId)
        (h : Health) (tried : List String)
        (results : List (ProviderId × NutritionData)) (e : Unit),
      (h p).available = true → env p = .error e →
      nutritionLoop env t' (p :: ps) h tried results
        = nutritionLoop env t' ps (Function.update h p (recordFailureNutrition (h p)))
            (tried ++ [providerName p ++ "(failed)"]) results) := by
  refine ⟨fun ha => ⟨rfl, ha⟩, rfl, ?_, ?_, ?_, rfl, rfl,
    fun env t' p ps h tried results e hp he =>
      nutritionLoop_err env t' p ps h tried results e hp he⟩
  · intro h3
    show (if 3 ≤ a.failures + 1 then false else a.available) = false
    rw [if_pos h3]
  · intro env t' p ps h tried rs hp he hne
    rw [searchLoop_success env t' p ps h tried rs hp he hne]
    simp only [Function.update_same]
    exact ⟨rfl, hp⟩
  · intro env t' p ps h tried results r hp he hz
    rw [nutritionLoop_success env t' p ps h tried results r hp he hz]
    simp only [Function.update_same]
    exact ⟨rfl, hp⟩

/-- Witness for C6's amended theorem at a concrete entry: an available entry
with 2 failures, exercising both failure-recording operations. -/
theorem health_tracker_contract_per_path_witness :
    (recordSuccess 9 ⟨true, 0, 2⟩).failures = 0 ∧
    (recordSuccess 9 ⟨true, 0, 2⟩).available = true ∧
    (recordFailure ⟨true, 0, 2⟩).failures = 3 ∧
    (recordFailure ⟨true, 0, 2⟩).available = false ∧
    (recordFailureNutrition ⟨true, 0, 2⟩).failures = 3 ∧
    (recordFailureNutrition ⟨true, 0, 2⟩).available = true := by
  have h := health_tracker_contract_per_path ⟨true, 0, 2⟩ 9
  exact ⟨(h.1 rfl).1, (h.1 rfl).2, h.2.1, h.2.2.1 (by decide),
    h.2.2.2.2.2.1, h.2.2.2.2.2.2.1⟩

end RecipeMCP

namespace RecipeMCP

/-- Counterexample to C7 as stated: the ingredient "broccoli broth" matches
both the high-fiber list ("broccoli") and the low-calorie list ("broth").
The claim's priority order (high-fiber before low-calorie) would put it in
the high-fiber bucket (+50 kcal, +8 g fiber), but the source's `elif` chain
tests `low_cal` before `high_fiber` and yields the low-calorie contribution
(+25 kcal, +3 g fiber). -/
theorem estimator_bucket_order_counterexample :
    estimate_nutrition ["broccoli broth".data] = ⟨25, 0, 0, 0, 3⟩ ∧
    estimate_nutrition_claim_order ["broccoli broth".data] = ⟨50, 0, 0, 0, 8⟩ ∧
    estimate_nutrition ["broccoli broth".data]
      ≠ estimate_nutrition_claim_order ["broccoli broth".data] := by
  have hp : (proteinWords.any fun word =>
      containsSub (lowerStr "broccoli broth".data) word) = false := by decide
  have hc : (highCarbWords.any fun word =>
      containsSub (lowerStr "broccoli broth".data) word) = false := by decide
  have hf : (highFatWords.any fun word =>
      containsSub (lowerStr "broccoli broth".data) word) = false := by decide
  have hl : (lowCalWords.any fun word =>
      containsSub (lowerStr "broccoli broth".data) word) = true := by decide
  have hfb : (highFiberWords.any fun word =>
      containsSub (lowerStr "broccoli broth".data) word) = true := by decide
  have e1 : estimate_nutrition ["broccoli broth".data] = ⟨25, 0, 0, 0, 3⟩ := by
    simp [estimate_nutrition, estimateStep, hp, hc, hf, hl, zeroNutrition]
  have e2 : estimate_nutrition_claim_order ["broccoli broth".data] = ⟨50, 0, 0, 0, 8⟩ := by
    simp [estimate_nutrition_claim_order, estimateStepClaimOrder, hp, hc, hf, hfb,
      zeroNutrition]
  refine ⟨e1, e2, ?_⟩
  rw [e1, e2]
  norm_num [NutritionData.mk.injEq]

/-- C7 amended: each ingredient is lower-cased and tested against the five
keyword buckets in the order protein-rich, high-carb, high-fat, low-calorie,
high-fiber (the source tests `low_cal` before `high_fiber`, the reverse of
the claimed order for those two); the first matching bucket contributes its
entire fixed increment, an ingredient is never counted in more than one
bucket, and unmatched ingredients add the default "other" contribution. -/
theorem estimator_first_match_bucket_fold (ingredients : List (List Char)) :
    estimate_nutrition ingredients
      = ingredients.foldl
          (fun acc i => addNutrition acc (bucketContribution (classifyIngredient i)))
          zeroNutrition := by
  have hstep : estimateStep = fun acc i =>
      addNutrition acc (bucketContribution (classifyIngredient i)) := by
    funext acc i
    simp only [estimateStep, classifyIngredient]
    split_ifs <;>
      simp [addNutrition, bucketContribution, NutritionData.mk.injEq]
  rw [estimate_nutrition, hstep]

end RecipeMCP

namespace RecipeMCP

/-- Counterexample to C8 as stated: with a character budget of 5 (the budget
is configurable via `LLM_MAX_CHARS`), the 11-character response
"abcd efghij" is cut to "abcd ", but the `rstrip()` between the slice and the
suffix drops the trailing blank, so the result is NOT exactly the
budget-length prefix plus the suffix — it is one character shorter. -/
theorem truncation_not_exact_budget :
    5 < ("abcd efghij".data).length ∧
    truncateAnswer "abcd efghij".data 5 ≠ ("abcd efghij".data.take 5) ++ trimmedSuffix := by
  exact ⟨by decide, by decide⟩

/-- C8 amended: a response longer than the budget is truncated to the
budget-length prefix with trailing whitespace stripped (`rstrip()`), plus the
literal trimmed suffix — hence at most (not always exactly) the budget plus
the suffix, and exactly that when the prefix does not end in whitespace. -/
theorem truncation_rstrip_bounded (answer : List Char) (max_chars : Nat)
    (h : max_chars < answer.length) :
    truncateAnswer answer max_chars
      = rstripChars (answer.take max_chars) ++ trimmedSuffix ∧
    (truncateAnswer answer max_chars).length ≤ max_chars + trimmedSuffix.length := by
  have heq : truncateAnswer answer max_chars
      = rstripChars (answer.take max_chars) ++ trimmedSuffix := by
    unfold truncateAnswer
    rw [if_pos h]
  refine ⟨heq, ?_⟩
  rw [heq, List.length_append]
  have h1 : (rstripChars (answer.take max_chars)).length
      ≤ (answer.take max_chars).length := by
    unfold rstripChars
    rw [List.length_reverse]
    calc ((answer.take max_chars).reverse.dropWhile Char.isWhitespace).length
        ≤ (answer.take max_chars).reverse.length :=
          (List.dropWhile_suffix Char.isWhitespace).sublist.length_le
      _ = (answer.take max_chars).length := List.length_reverse _
  have h2 : (answer.take max_chars).length ≤ max_chars := by
    rw [List.length_take]
    exact min_le_left _ _
  omega

/-- Witness for C8's amended theorem: a 6-character answer against budget 3. -/
theorem truncation_rstrip_bounded_witness :
    truncateAnswer "abcdef".data 3 = rstripChars ("abcdef".data.take 3) ++ trimmedSuffix ∧
    (truncateAnswer "abcdef".data 3).length ≤ 3 + trimmedSuffix.length := by
  exact truncation_rstrip_bounded "abcdef".data 3 (by decide)

/-- C9 (code bug): the embedded-nutrients path of `analyze_nutrition` divides
by the raw `servings` value, so a recipe whose `nutrition.nutrients` list
names "Calories" and whose `servings` field is 0 makes the Python code raise
`ZeroDivisionError` (modelled as `none`), while the claim — and the
ingredient-based path of the very same function — divide by
`max(servings, 1)`, which at servings 0 yields the value unchanged. -/
theorem embedded_per_serving_division_by_zero :
    analyze_embedded [("Calories".data, 100)] 0 = none ∧
    per_serving_guarded 100 0 = 100 := by
  constructor
  · decide
  · norm_num [per_serving_guarded]

/-- C10: a provider call that returns without raising but yields no usable
data (an empty recipe list for search; an all-zero nutrient record for
nutrition) leaves the whole health table — hence that provider's failure
counter, last-success timestamp and availability flag — unchanged: the loop
recurses with the same `h`.  Only the exception branch installs a failure
recording (`recordFailure` in the search loop, `recordFailureNutrition` in
the nutrition loop) and only the usable-data branch installs
`recordSuccess`. -/
theorem provider_health_frame_on_unusable_data (envS : SearchEnv) (envN : NutritionEnv)
    (t : Nat) (p : ProviderId) (ps : List ProviderId) (h : Health)
    (tried : List String) (results : List (ProviderId × NutritionData)) :
    ((h p).available = true → envS p = .ok [] →
      searchLoop envS t (p :: ps) h tried
        = searchLoop envS t ps h (tried ++ [providerName p])) ∧
    (∀ r, (h p).available = true → envN p = .ok r → anyNonzero r = false →
      nutritionLoop envN t (p :: ps) h tried results
        = nutritionLoop envN t ps h (tried ++ [providerName p]) results) ∧
    (∀ e, (h p).available = true → envS p = .error e →
      searchLoop envS t (p :: ps) h tried
        = searchLoop envS t ps (Function.update h p (recordFailure (h p)))
            (tried ++ [providerName p ++ "(failed)"])) ∧
    (∀ rs, (h p).available = true → envS p = .ok rs → rs ≠ [] →
      (searchLoop envS t (p :: ps) h tried).1
        = Function.update h p (recordSuccess t (h p))) := by
  refine ⟨fun hp he => searchLoop_emptyOk envS t p ps h tried hp he,
    fun r hp he hz => nutritionLoop_zero envN t p ps h tried results r hp he hz,
    fun e hp he => searchLoop_err envS t p ps h tried e hp he,
    fun rs hp he hne => ?_⟩
  rw [searchLoop_success envS t p ps h tried rs hp he hne]

/-- Witness for C10: concrete empty-result and all-zero calls against the
initial health table. -/
theorem provider_health_frame_on_unusable_data_witness :
    searchLoop (fun _ => Except.ok []) 4 [ProviderId.themealdb] (initHealth 0) []
      = searchLoop (fun _ => Except.ok []) 4 [] (initHealth 0)
          ([] ++ [providerName ProviderId.themealdb]) ∧
    nutritionLoop (fun _ => Except.ok zeroNutrition) 4 [ProviderId.usda] (initHealth 0) [] []
      = nutritionLoop (fun _ => Except.ok zeroNutrition) 4 [] (initHealth 0)
          ([] ++ [providerName ProviderId.usda]) [] := by
  have h := provider_health_frame_on_unusable_data (fun _ => Except.ok [])
    (fun _ => Except.ok zeroNutrition) 4 ProviderId.themealdb [] (initHealth 0) [] []
  have h' := provider_health_frame_on_unusable_data (fun _ => Except.ok [])
    (fun _ => Except.ok zeroNutrition) 4 ProviderId.usda [] (initHealth 0) [] []
  exact ⟨h.1 rfl rfl, h'.2.1 zeroNutrition rfl rfl (by decide)⟩

end RecipeMCP
